import Mathlib

/-!
# Verification of the gardener autoscaling components

A shallow embedding of the resource-scaling reconciliation logic of the
repository: the BilinearPodAutoscaler ("bipa") coordinator for
kube-apiserver (package `bipa`, file `bilinear_pod_autoscaler.go`), the
`GardenerCustomMetrics` seed component (package `gardenercustommetrics`,
file `component.go`), the `pvcautoscaler` seed component (package
`pvcautoscaler`, file `pvc_autoscaler.go` and `service_monitor.go`), and
the storage-class helper `IsDefaultStorageClassResizable` (package
`kubernetes`).

Pure desired-state computations are translated directly from the Go
sources.  Interactions with the Kubernetes API server are modelled as
explicit state passing over small record types holding exactly the
objects the embedded functions read and write; library helpers of the
wider gardener framework that are not part of the examined sources
(idempotent delete helpers, the ManagedResource waiters, the secrets
manager) are modelled from the specification and are marked as such in
their doc comments.
-/

/-! ## Kubernetes quantities

`k8s.io/apimachinery/pkg/api/resource.Quantity` values are embedded by
their canonical value in thousandths of the base unit (milli-units for
CPU, thousandths of a byte for memory), which is exact for every literal
appearing in the sources. -/

/-- A `resource.Quantity`, represented as its value in milli-units. -/
structure Quantity where
  milliValue : Int
deriving DecidableEq, Repr

/-- `resource.MustParse "300"` (the HPA metric target). -/
def quantity300 : Quantity := ⟨300 * 1000⟩

/-- `resource.MustParse "400M"` (400 * 10^6 bytes). -/
def quantity400M : Quantity := ⟨400000000 * 1000⟩

/-- `resource.MustParse "8"` (8 CPU cores). -/
def quantity8 : Quantity := ⟨8 * 1000⟩

/-- `resource.MustParse "25G"` (25 * 10^9 bytes). -/
def quantity25G : Quantity := ⟨25000000000 * 1000⟩

/-- A `corev1.ResourceList`, restricted to the two resource names the
sources ever mention (`corev1.ResourceCPU`, `corev1.ResourceMemory`). -/
structure ResourceList where
  cpu : Option Quantity
  memory : Option Quantity
deriving DecidableEq, Repr

/-! ## Embedded autoscaling API types

Restrictions of `autoscalingv2.HorizontalPodAutoscalerSpec` and
`vpaautoscalingv1.VerticalPodAutoscalerSpec` to the fields the embedded
code reads or writes.  String-typed enumeration constants keep the wire
values of the Go constants. -/

/-- `autoscalingv2.PodsMetricSourceType`. -/
def podsMetricSourceType : String := "Pods"

/-- `autoscalingv2.AverageValueMetricType`. -/
def averageValueMetricType : String := "AverageValue"

/-- `vpaautoscalingv1.UpdateModeAuto`. -/
def updateModeAuto : String := "Auto"

/-- `vpaautoscalingv1.ContainerScalingModeAuto`. -/
def containerScalingModeAuto : String := "Auto"

/-- `vpaautoscalingv1.ContainerControlledValuesRequestsOnly`. -/
def controlledValuesRequestsOnly : String := "RequestsOnly"

/-- `autoscalingv2.CrossVersionObjectReference` (also covers the
`autoscalingv1` variant used by the VPA target ref). -/
structure CrossVersionObjectReference where
  apiVersion : String
  kind : String
  name : String
deriving DecidableEq, Repr

/-- `autoscalingv2.MetricIdentifier`. -/
structure MetricIdentifier where
  name : String
deriving DecidableEq, Repr

/-- `autoscalingv2.MetricTarget`, restricted to the fields set by the
sources (`Type`, `AverageValue`). -/
structure MetricTarget where
  type : String
  averageValue : Option Quantity
deriving DecidableEq, Repr

/-- `autoscalingv2.PodsMetricSource`. -/
structure PodsMetricSource where
  metric : MetricIdentifier
  target : MetricTarget
deriving DecidableEq, Repr

/-- `autoscalingv2.MetricSpec`, restricted to the `Pods` source used by
the sources. -/
structure MetricSpec where
  type : String
  pods : Option PodsMetricSource
deriving DecidableEq, Repr

/-- `autoscalingv2.HPAScalingRules`, restricted to
`StabilizationWindowSeconds`. -/
structure HPAScalingRules where
  stabilizationWindowSeconds : Option Int
deriving DecidableEq, Repr

/-- `autoscalingv2.HorizontalPodAutoscalerBehavior`. -/
structure HorizontalPodAutoscalerBehavior where
  scaleUp : Option HPAScalingRules
  scaleDown : Option HPAScalingRules
deriving DecidableEq, Repr

/-- `autoscalingv2.HorizontalPodAutoscalerSpec`, restricted to the
fields written by `reconcileHPA`. -/
structure HPASpec where
  scaleTargetRef : CrossVersionObjectReference
  behavior : Option HorizontalPodAutoscalerBehavior
  metrics : List MetricSpec
  minReplicas : Option Int
  maxReplicas : Int
deriving DecidableEq, Repr

/-- `vpaautoscalingv1.PodUpdatePolicy`. -/
structure PodUpdatePolicy where
  minReplicas : Option Int
  updateMode : Option String
deriving DecidableEq, Repr

/-- `vpaautoscalingv1.ContainerResourcePolicy`, restricted to the fields
written by the sources. -/
structure ContainerResourcePolicy where
  containerName : String
  mode : Option String
  minAllowed : ResourceList
  maxAllowed : ResourceList
  controlledValues : Option String
deriving DecidableEq, Repr

/-- `vpaautoscalingv1.PodResourcePolicy`. -/
structure PodResourcePolicy where
  containerPolicies : List ContainerResourcePolicy
deriving DecidableEq, Repr

/-- `vpaautoscalingv1.VerticalPodAutoscalerSpec`, restricted to the
fields written by `reconcileVPA`. -/
structure VPASpec where
  targetRef : Option CrossVersionObjectReference
  updatePolicy : Option PodUpdatePolicy
  resourcePolicy : Option PodResourcePolicy
deriving DecidableEq, Repr

/-! ## The BilinearPodAutoscaler coordinator (package `bipa`)

Translated from `bilinear_pod_autoscaler.go` (the revision compiled by
`bilinear_pod_autoscaler_test.go`, which exercises `makeEmptyHPA` /
`makeEmptyVPA`). -/

/-- `DesiredStateParameters` of the bipa package. -/
structure DesiredStateParameters where
  containerNameApiserver : String
  isEnabled : Bool
  maxReplicaCount : Int
  minReplicaCount : Int
deriving DecidableEq, Repr

/-- `appsv1.SchemeGroupVersion.String()`. -/
def appsV1GroupVersion : String := "apps/v1"

/-- The HPA metric name written by `reconcileHPA`: the request-rate
metric supplied by the gardener-custom-metrics component. -/
def bipaHPAMetricName : String := "shoot:apiserver_request_total:sum"

/-- The desired `HPASpec` computed by the mutation function inside
`reconcileHPA` (`bilinear_pod_autoscaler.go`). -/
def bipaDesiredHPASpec (deploymentNameApiserver : String)
    (minReplicaCount maxReplicaCount : Int) : HPASpec :=
  { scaleTargetRef :=
      { apiVersion := appsV1GroupVersion
        kind := "Deployment"
        name := deploymentNameApiserver }
    behavior := some
      { scaleUp := none
        scaleDown := some { stabilizationWindowSeconds := some 900 } }
    metrics :=
      [ { type := podsMetricSourceType
          pods := some
            { metric := { name := bipaHPAMetricName }
              target := { type := averageValueMetricType
                          averageValue := some quantity300 } } } ]
    minReplicas := some minReplicaCount
    maxReplicas := maxReplicaCount }

/-- `makeDefaultVPAResourcePolicies` (`bilinear_pod_autoscaler.go`): the
list of VPA container resource policies, initialised with default
settings.  Note that `MinAllowed` carries only a memory entry. -/
def makeDefaultVPAResourcePolicies (containerNameApiserver : String) :
    List ContainerResourcePolicy :=
  [ { containerName := containerNameApiserver
      mode := some containerScalingModeAuto
      minAllowed := { cpu := none, memory := some quantity400M }
      maxAllowed := { cpu := some quantity8, memory := some quantity25G }
      controlledValues := some controlledValuesRequestsOnly } ]

/-- The desired `VPASpec` computed by the mutation function inside
`reconcileVPA` (`bilinear_pod_autoscaler.go`). -/
def bipaDesiredVPASpec (deploymentNameApiserver containerNameApiserver : String)
    (minReplicaCount : Int) : VPASpec :=
  { targetRef := some
      { apiVersion := appsV1GroupVersion
        kind := "Deployment"
        name := deploymentNameApiserver }
    updatePolicy := some
      { minReplicas := some minReplicaCount
        updateMode := some updateModeAuto }
    resourcePolicy := some
      { containerPolicies := makeDefaultVPAResourcePolicies containerNameApiserver } }

/-- The seed-side server state the bipa functions read and write: the
HPA and VPA objects named `<deployment>-bipa`, the
`gardener-custom-metrics` ManagedResource envelope, and the shoot
access secret. -/
structure BipaServerState where
  hpa : Option HPASpec
  vpa : Option VPASpec
  managedResource : Bool
  shootAccessSecret : Bool
deriving DecidableEq, Repr

/-- Modelled from the spec: `managedresources.DeleteForShoot` (gardener
framework, not under the examined sources) deletes the ManagedResource
envelope; deletion of a non-existent object is treated as success
(idempotent delete). -/
def deleteForShoot (s : BipaServerState) : Except String BipaServerState :=
  .ok { s with managedResource := false }

/-- Modelled from the spec: `kubernetesutils.DeleteObject` on the HPA,
wrapped in `client.IgnoreNotFound`; deleting a missing object succeeds. -/
def deleteHPAObject (s : BipaServerState) : Except String BipaServerState :=
  .ok { s with hpa := none }

/-- Modelled from the spec: `kubernetesutils.DeleteObject` on the VPA,
wrapped in `client.IgnoreNotFound`; deleting a missing object succeeds. -/
def deleteVPAObject (s : BipaServerState) : Except String BipaServerState :=
  .ok { s with vpa := none }

/-- Modelled from the spec: `kubernetesutils.DeleteObjects` on the shoot
access secret; deleting a missing object succeeds. -/
def deleteShootAccessSecretObject (s : BipaServerState) :
    Except String BipaServerState :=
  .ok { s with shootAccessSecret := false }

/-- `DeleteFromServer` (`bilinear_pod_autoscaler.go`): removes the
ManagedResource envelope, the HPA, the VPA and the shoot access secret,
in that order, propagating the first failure. -/
def DeleteFromServer (s : BipaServerState) : Except String BipaServerState := do
  let s ← deleteForShoot s
  let s ← deleteHPAObject s
  let s ← deleteVPAObject s
  let s ← deleteShootAccessSecretObject s
  return s

/-- Modelled from the spec: `controllerutils.GetAndCreateOrMergePatch`
(gardener framework) gets or creates the object and patches it to the
state produced by the mutation function; the desired spec computed by
the mutation replaces the stored spec. -/
def getAndCreateOrMergePatchHPA (s : BipaServerState) (desired : HPASpec) :
    Except String BipaServerState :=
  .ok { s with hpa := some desired }

/-- Modelled from the spec: `controllerutils.GetAndCreateOrMergePatch`
for the VPA object. -/
def getAndCreateOrMergePatchVPA (s : BipaServerState) (desired : VPASpec) :
    Except String BipaServerState :=
  .ok { s with vpa := some desired }

/-- `reconcileHPA` (`bilinear_pod_autoscaler.go`). -/
def reconcileHPA (deploymentNameApiserver : String) (s : BipaServerState)
    (minReplicaCount maxReplicaCount : Int) : Except String BipaServerState :=
  getAndCreateOrMergePatchHPA s
    (bipaDesiredHPASpec deploymentNameApiserver minReplicaCount maxReplicaCount)

/-- `reconcileVPA` (`bilinear_pod_autoscaler.go`). -/
def reconcileVPA (deploymentNameApiserver : String) (s : BipaServerState)
    (containerNameApiserver : String) (minReplicaCount : Int) :
    Except String BipaServerState :=
  getAndCreateOrMergePatchVPA s
    (bipaDesiredVPASpec deploymentNameApiserver containerNameApiserver minReplicaCount)

/-- Modelled from the spec: `AccessSecret.Reconcile` (gardener
framework) creates or updates the shoot access secret on the server. -/
def reconcileShootAccessSecret (s : BipaServerState) :
    Except String BipaServerState :=
  .ok { s with shootAccessSecret := true }

/-- Modelled from the spec: `managedresources.CreateForShoot` (gardener
framework), called by `reconcileAppResources`, creates or updates the
`gardener-custom-metrics` ManagedResource envelope. -/
def reconcileAppResources (s : BipaServerState) :
    Except String BipaServerState :=
  .ok { s with managedResource := true }

/-- `Reconcile` (`bilinear_pod_autoscaler.go`): when disabled, tears the
setup down via `DeleteFromServer`; when enabled, reconciles the HPA, the
VPA, the shoot access secret and the app resources, in that order. -/
def bipaReconcile (deploymentNameApiserver : String) (s : BipaServerState)
    (parameters : DesiredStateParameters) : Except String BipaServerState :=
  if !parameters.isEnabled then
    DeleteFromServer s
  else do
    let s ← reconcileHPA deploymentNameApiserver s
      parameters.minReplicaCount parameters.maxReplicaCount
    let s ← reconcileVPA deploymentNameApiserver s
      parameters.containerNameApiserver parameters.minReplicaCount
    let s ← reconcileShootAccessSecret s
    let s ← reconcileAppResources s
    return s

/-! ## Storage class helper (package `kubernetes`)

Translated from the file defining `IsDefaultStorageClassResizable`. -/

/-- `storagev1.StorageClass`, restricted to the fields the helper reads:
the object metadata annotation map (field `annos`, embedding
`ObjectMeta.Annotations`) and `AllowVolumeExpansion` (a `*bool`). -/
structure StorageClass where
  annos : List (String × String)
  allowVolumeExpansion : Option Bool
deriving DecidableEq, Repr

/-- Go map lookup `value, exists := sc.Annotations[key]`. -/
def lookupAnno (m : List (String × String)) (key : String) : Option String :=
  (m.find? (fun kv => kv.1 == key)).map (fun kv => kv.2)

/-- `isDefaultStorageClass`: true when either the stable or the beta
is-default-class annotation is present with value `"true"`. -/
def isDefaultStorageClass (sc : StorageClass) : Bool :=
  if lookupAnno sc.annos "storageclass.kubernetes.io/is-default-class" == some "true" then
    true
  else if lookupAnno sc.annos "storageclass.beta.kubernetes.io/is-default-class" == some "true" then
    true
  else
    false

/-- `fmt.Sprint(2)`, as it appears verbatim in the hacked condition of
`IsDefaultStorageClassResizable`. -/
def fmtSprintTwo : String := toString 2

/-- `IsDefaultStorageClassResizable`, iterating over the listed storage
classes.  The condition is translated with Go's precedence:
`(sc.AllowVolumeExpansion != nil && *sc.AllowVolumeExpansion) ||
fmt.Sprint(2) != "3"` — the second disjunct is the in-source
`TODO: ... Hacked to work with local provisioner` branch. -/
def IsDefaultStorageClassResizable : List StorageClass → Bool
  | [] => false
  | sc :: rest =>
    if isDefaultStorageClass sc then
      if (sc.allowVolumeExpansion == some true) || (fmtSprintTwo != "3") then
        true
      else
        IsDefaultStorageClassResizable rest
    else
      IsDefaultStorageClassResizable rest

/-- The predicate in the words of the claim (refinement reference): the
list contains a default storage class whose `AllowVolumeExpansion`
attribute is set and true. -/
def specDefaultStorageClassSupportsExpansion (storageClasses : List StorageClass) : Bool :=
  storageClasses.any (fun sc => isDefaultStorageClass sc && sc.allowVolumeExpansion == some true)

/-- A default storage class whose `AllowVolumeExpansion` is unset: the
failing input exhibiting the hacked condition. -/
def defaultClassWithoutExpansion : StorageClass :=
  { annos := [("storageclass.kubernetes.io/is-default-class", "true")]
    allowVolumeExpansion := none }

/-! ## Substring occurrence

Used to state that error messages identify the failed object and
operation. -/

/-- Whether `pat` occurs as a contiguous run inside the character list. -/
def charsContain (pat : List Char) : List Char → Bool
  | [] => pat.isEmpty
  | c :: cs => pat.isPrefixOf (c :: cs) || charsContain pat cs

/-- Whether `pat` occurs as a contiguous substring of `s`. -/
def strContains (s pat : String) : Bool := charsContain pat.data s.data

/-! ## The GardenerCustomMetrics component (package `gardenercustommetrics`)

Translated from `component.go`. -/

/-- `v1beta1constants.SecretNameCASeed`. -/
def secretNameCASeed : String := "ca-seed"

/-- `componentBaseName` (`component.go`). -/
def gcmxComponentBaseName : String := "gardener-custom-metrics"

/-- `managedResourceName` (`component.go`). -/
def gcmxManagedResourceName : String := gcmxComponentBaseName

/-- `serverCertificateSecretName` (`component.go`). -/
def gcmxServerCertificateSecretName : String := gcmxComponentBaseName ++ "-tls"

/-- The seed-side server state the component reads and writes: the
server TLS certificate secret and the `gardener-custom-metrics`
ManagedResource. -/
structure GcmxServerState where
  serverCertificateSecret : Bool
  managedResource : Bool
deriving DecidableEq, Repr

/-- Result of a GardenerCustomMetrics operation: the error returned to
the caller (if any) together with the server state after the call. -/
structure GcmxResult where
  error : Option String
  state : GcmxServerState
deriving DecidableEq, Repr

/-- The `baseErrorMessage` built at the top of `deployServerCertificate`
(`component.go`). -/
def gcmxCertificateBaseErrorMessage : String :=
  "An error occurred while deploying server TLS certificate for gardener-custom-metrics"

/-- The error returned by `deployServerCertificate` when the `ca-seed`
CA secret is absent from the secrets manager (`component.go`). -/
def gcmxCAMissingErrorMessage : String :=
  gcmxCertificateBaseErrorMessage
  ++ " - the CA certificate, which is required to sign said server certificate, is missing. "
  ++ "The CA certificate was expected in the '" ++ secretNameCASeed
  ++ "' secret, but that secret was not found"

/-- Modelled from the spec: `secretsManager.Generate` (gardener secrets
manager, not under the examined sources) stores the generated server
TLS certificate in its secret; in the fault-free server model the
generation succeeds. -/
def generateServerCertificateSecret (s : GcmxServerState) : GcmxServerState :=
  { s with serverCertificateSecret := true }

/-- `deployServerCertificate` (`component.go`): fails, without touching
the server, when the `ca-seed` CA secret is absent; otherwise generates
and stores the server TLS certificate secret. -/
def deployServerCertificate (caSeedPresent : Bool) (s : GcmxServerState) : GcmxResult :=
  if !caSeedPresent then
    { error := some gcmxCAMissingErrorMessage, state := s }
  else
    { error := none, state := generateServerCertificateSecret s }

/-- Modelled from the spec: `component.DestroyResourceConfigs` (gardener
framework) removes the ManagedResource; deletion of absent objects is
treated as success. -/
def destroyResourceConfigs (s : GcmxServerState) : GcmxServerState :=
  { s with managedResource := false }

/-- Modelled from the spec: `component.DeployResourceConfigs` (gardener
framework) deploys the resource configs to the server as the
component's ManagedResource. -/
def deployResourceConfigs (s : GcmxServerState) : GcmxServerState :=
  { s with managedResource := true }

/-- The `baseErrorMessage` built at the top of `Deploy` (`component.go`). -/
def gcmxBaseErrorMessage (namespaceName : String) : String :=
  "An error occurred while deploying GardenerCustomMetrics component in namespace '"
  ++ namespaceName ++ "' of the seed server"

/-- `Destroy` (`component.go`): removes the ManagedResource via
`DestroyResourceConfigs`, wrapping any failure. -/
def gcmxDestroy (s : GcmxServerState) : GcmxResult :=
  { error := none, state := destroyResourceConfigs s }

/-- `Deploy` (`component.go`): when disabled, acts as `Destroy`; when
enabled, deploys the server certificate (failing early if the CA secret
is missing) and then the resource configs. -/
def gcmxDeploy (namespaceName : String) (isEnabled caSeedPresent : Bool)
    (s : GcmxServerState) : GcmxResult :=
  if !isEnabled then
    let destroyed := gcmxDestroy s
    match destroyed.error with
    | some e =>
      { error := some (gcmxBaseErrorMessage namespaceName
          ++ " - failed to bring the GardenerCustomMetrics on the server to a disabled state. "
          ++ "The error message reported by the underlying operation follows: " ++ e)
        state := destroyed.state }
    | none => { error := none, state := destroyed.state }
  else
    let certResult := deployServerCertificate caSeedPresent s
    match certResult.error with
    | some e =>
      { error := some (gcmxBaseErrorMessage namespaceName
          ++ " - failed to deploy the gardener-custom-metrics server TLS certificate to the seed server. "
          ++ "The error message reported by the underlying operation follows: " ++ e)
        state := certResult.state }
    | none => { error := none, state := deployResourceConfigs certResult.state }

/-! ## The pvc-autoscaler seed component (package `pvcautoscaler`)

Translated from the component file defining `Wait` / `WaitCleanup` and
from `service_monitor.go`. -/

/-- `time.Minute` in nanoseconds (Go `time.Duration` units). -/
def timeMinute : Nat := 60 * 1000000000

/-- `managedResourceTimeout` (`pvcautoscaler`): the timeout used while
waiting for the ManagedResource to become healthy or deleted. -/
def managedResourceTimeout : Nat := 2 * timeMinute

/-- `managedResourceName` (`pvcautoscaler`). -/
def pvcManagedResourceName : String := "pvc-autoscaler"

/-- The inner error text produced by the framework waiter on expiry
(modelled; its exact wording is not part of the examined sources). -/
def waiterExpiredText : String := "context deadline exceeded"

/-- Modelled from the spec: `managedresources.WaitUntilHealthy`
(gardener framework, not under the examined sources): given the instant
(nanoseconds after the call) at which the ManagedResource becomes
healthy — `some 0` if already healthy, `none` if never — the wait
succeeds exactly when that happens within the timeout, and returns an
error on expiry. -/
def waitUntilHealthy (timeout : Nat) (healthyTime : Option Nat) : Except String Unit :=
  match healthyTime with
  | some t => if t ≤ timeout then .ok () else .error waiterExpiredText
  | none => .error waiterExpiredText

/-- Modelled from the spec: `managedresources.WaitUntilDeleted`
(gardener framework): given the instant at which the ManagedResource is
gone — `some 0` if already absent — the wait succeeds exactly when that
happens within the timeout, and returns an error on expiry. -/
def waitUntilDeleted (timeout : Nat) (deletionTime : Option Nat) : Except String Unit :=
  match deletionTime with
  | some t => if t ≤ timeout then .ok () else .error waiterExpiredText
  | none => .error waiterExpiredText

/-- `Wait` (`pvcautoscaler`): waits, under `managedResourceTimeout`,
until the ManagedResource is healthy, wrapping a failure with the
object's namespace and name and the awaited condition. -/
def pvcAutoscalerWait (namespaceName : String) (healthyTime : Option Nat) :
    Except String Unit :=
  match waitUntilHealthy managedResourceTimeout healthyTime with
  | .error e => .error ("failed to wait until ManagedResource '" ++ namespaceName
      ++ "/" ++ pvcManagedResourceName ++ "' is healthy: " ++ e)
  | .ok _ => .ok ()

/-- `WaitCleanup` (`pvcautoscaler`): waits, under
`managedResourceTimeout`, until the ManagedResource is deleted,
wrapping a failure with the object's namespace and name and the awaited
condition. -/
def pvcAutoscalerWaitCleanup (namespaceName : String) (deletionTime : Option Nat) :
    Except String Unit :=
  match waitUntilDeleted managedResourceTimeout deletionTime with
  | .error e => .error ("failed to wait until ManagedResource '" ++ namespaceName
      ++ "/" ++ pvcManagedResourceName ++ "' is deleted: " ++ e)
  | .ok _ => .ok ()

/-- The metric series kept by the `StandardMetricRelabelConfig` of
`serviceMonitor` (`service_monitor.go`), in source order. -/
def pvcServiceMonitorKeptMetrics : List String :=
  [ "pvc_autoscaler_max_capacity_reached_total"
  , "pvc_autoscaler_resized_total"
  , "pvc_autoscaler_skipped_total"
  , "pvc_autoscaler_threshold_reached_total" ]

/-! ## The volume autoscaling engine

The engine itself is the external `pvc-autoscaler` application
(github.com/gardener/pvc-autoscaler); the examined sources only deploy
and monitor it.  The decision procedure below is modelled from the
spec, §4.1. -/

/-- Modelled from the spec: the outcome classes under which the engine
records every per-volume decision, as counter metrics: `resized`,
`skipped` (below threshold), `max-capacity-reached`, `error`. -/
inductive VolumeOutcome where
  | resized
  | skipped
  | maxCapacityReached
  | failure
deriving DecidableEq, Repr

/-- Modelled from the spec: the Prometheus counter series name for each
outcome, following the `pvc_autoscaler_<outcome>_total` naming of the
series kept by the service monitor (`failure` is the `error` outcome of
the spec's taxonomy). -/
def VolumeOutcome.counterName : VolumeOutcome → String
  | .resized => "pvc_autoscaler_resized_total"
  | .skipped => "pvc_autoscaler_skipped_total"
  | .maxCapacityReached => "pvc_autoscaler_max_capacity_reached_total"
  | .failure => "pvc_autoscaler_errors_total"

/-- Modelled from the spec: `ScalableVolume` (§3), one persistent
volume under management. -/
structure ScalableVolume where
  namespaceName : String
  name : String
  currentCapacityBytes : Nat
  usedBytes : Nat
  currentCapacityInodes : Option Nat
  usedInodes : Option Nat
  maxAllowedCapacityBytes : Nat
  isAutoscaleEnabled : Bool
  storageClassSupportsExpansion : Bool
deriving DecidableEq, Repr

/-- Modelled from the spec: the engine's per-volume decision. -/
inductive EngineAction where
  | noAction
  | maxCapacityReached
  | resize (newCapacityBytes : Nat)
deriving DecidableEq, Repr

/-- Modelled from the spec: utilization at or above the byte trigger
threshold `tNum/tDen` (§4.1 step 3; equality counts as triggered). -/
def bytesThresholdReached (tNum tDen : Nat) (v : ScalableVolume) : Bool :=
  decide (tNum * v.currentCapacityBytes ≤ v.usedBytes * tDen)

/-- Modelled from the spec: inode utilization at or above its threshold
`iNum/iDen`, when inodes are tracked; untracked inodes never trigger. -/
def inodesThresholdReached (iNum iDen : Nat) (v : ScalableVolume) : Bool :=
  match v.usedInodes, v.currentCapacityInodes with
  | some used, some cap => decide (iNum * cap ≤ used * iDen)
  | _, _ => false

/-- Modelled from the spec: the engine's per-volume decision procedure
(§4.1).  `grow` is the growth-increment policy, left abstract because
the spec lists the exact growth formula as a configurable parameter;
the candidate capacity is clamped to `maxAllowedCapacityBytes`, and a
clamped candidate not above the current capacity yields the
max-capacity-reached signal instead of a resize. -/
def decideVolumeAction (grow : ScalableVolume → Nat) (tNum tDen iNum iDen : Nat)
    (v : ScalableVolume) : EngineAction :=
  if !v.isAutoscaleEnabled || !v.storageClassSupportsExpansion then
    .noAction
  else if !bytesThresholdReached tNum tDen v && !inodesThresholdReached iNum iDen v then
    .noAction
  else if min (grow v) v.maxAllowedCapacityBytes ≤ v.currentCapacityBytes then
    .maxCapacityReached
  else
    .resize (min (grow v) v.maxAllowedCapacityBytes)

/-- Modelled from the spec: applying a decision to the server.  A
resize patch always carries the full absolute target capacity; the
other outcomes leave the claim untouched. -/
def applyEngineAction (v : ScalableVolume) : EngineAction → ScalableVolume
  | .resize newCapacityBytes => { v with currentCapacityBytes := newCapacityBytes }
  | .noAction => v
  | .maxCapacityReached => v

/-- Modelled from the spec: the usage readings refreshed from the
metrics source at the start of each scan cycle. -/
structure UsageObservation where
  usedBytes : Nat
  usedInodes : Option Nat
deriving DecidableEq, Repr

/-- Modelled from the spec: attribute refresh on a scan cycle. -/
def refreshUsage (v : ScalableVolume) (o : UsageObservation) : ScalableVolume :=
  { v with usedBytes := o.usedBytes, usedInodes := o.usedInodes }

/-- One reconciliation pass over one volume: refresh the usage
observation, decide, apply. -/
def enginePass (grow : ScalableVolume → Nat) (tNum tDen iNum iDen : Nat)
    (v : ScalableVolume) (o : UsageObservation) : ScalableVolume :=
  let refreshed := refreshUsage v o
  applyEngineAction refreshed (decideVolumeAction grow tNum tDen iNum iDen refreshed)

/-- A sequence of reconciliation passes driven by a usage trajectory. -/
def engineRun (grow : ScalableVolume → Nat) (tNum tDen iNum iDen : Nat)
    (v : ScalableVolume) (trajectory : List UsageObservation) : ScalableVolume :=
  trajectory.foldl (enginePass grow tNum tDen iNum iDen) v

/-- Spec concrete scenario 1's volume: capacity 10Gi, used 9Gi,
maxAllowed 20Gi, autoscaling enabled, resizable class. -/
def scenario1Volume : ScalableVolume :=
  { namespaceName := "shoot--test", name := "vali-vali-0"
    currentCapacityBytes := 10737418240, usedBytes := 9663676416
    currentCapacityInodes := none, usedInodes := none
    maxAllowedCapacityBytes := 21474836480
    isAutoscaleEnabled := true, storageClassSupportsExpansion := true }

/-- A concrete growth policy (double the current capacity), used to
instantiate the abstract growth parameter in witnesses. -/
def growDouble (v : ScalableVolume) : Nat := 2 * v.currentCapacityBytes

/-! ## Claim C1 -/

/-- **C1**: For every reconciliation of the coordinator with
`IsEnabled = true` and any `MinReplicaCount` value `m`, the vertical
policy written to the server has `UpdatePolicy.MinReplicas = m`, the
same minimum as the horizontal policy's `MinReplicas`. -/
theorem bipa_vpa_min_replicas_matches_hpa (deploymentNameApiserver : String)
    (s : BipaServerState) (p : DesiredStateParameters)
    (h : p.isEnabled = true) :
    ∃ s' : BipaServerState,
      bipaReconcile deploymentNameApiserver s p = .ok s'
      ∧ s'.vpa = some (bipaDesiredVPASpec deploymentNameApiserver
          p.containerNameApiserver p.minReplicaCount)
      ∧ (bipaDesiredVPASpec deploymentNameApiserver
          p.containerNameApiserver p.minReplicaCount).updatePolicy
        = some { minReplicas := some p.minReplicaCount
                 updateMode := some updateModeAuto }
      ∧ s'.hpa = some (bipaDesiredHPASpec deploymentNameApiserver
          p.minReplicaCount p.maxReplicaCount)
      ∧ (bipaDesiredHPASpec deploymentNameApiserver
          p.minReplicaCount p.maxReplicaCount).minReplicas
        = some p.minReplicaCount := by
  refine ⟨{ hpa := some (bipaDesiredHPASpec deploymentNameApiserver
              p.minReplicaCount p.maxReplicaCount)
            vpa := some (bipaDesiredVPASpec deploymentNameApiserver
              p.containerNameApiserver p.minReplicaCount)
            managedResource := true, shootAccessSecret := true }, ?_, rfl, rfl, rfl, rfl⟩
  simp only [bipaReconcile, h, Bool.not_true, Bool.false_eq_true, if_false,
    reconcileHPA, reconcileVPA, getAndCreateOrMergePatchHPA,
    getAndCreateOrMergePatchVPA, reconcileShootAccessSecret,
    reconcileAppResources]
  rfl

/-- Witness for C1: reconciling with `minReplicas = 1` yields a vertical
policy `minReplicas` of 1, matching the horizontal policy. -/
theorem bipa_vpa_min_replicas_matches_hpa_witness :
    ({ containerNameApiserver := "kube-apiserver", isEnabled := true
       maxReplicaCount := 4, minReplicaCount := 1 } :
       DesiredStateParameters).isEnabled = true
    ∧ ∃ s' : BipaServerState,
        bipaReconcile "kube-apiserver"
          { hpa := none, vpa := none, managedResource := false
            shootAccessSecret := false }
          { containerNameApiserver := "kube-apiserver", isEnabled := true
            maxReplicaCount := 4, minReplicaCount := 1 } = .ok s'
        ∧ s'.vpa = some (bipaDesiredVPASpec "kube-apiserver" "kube-apiserver" 1)
        ∧ (bipaDesiredVPASpec "kube-apiserver" "kube-apiserver" 1).updatePolicy
          = some { minReplicas := some 1, updateMode := some updateModeAuto }
        ∧ s'.hpa = some (bipaDesiredHPASpec "kube-apiserver" 1 4)
        ∧ (bipaDesiredHPASpec "kube-apiserver" 1 4).minReplicas = some 1 :=
  ⟨rfl, bipa_vpa_min_replicas_matches_hpa "kube-apiserver"
    { hpa := none, vpa := none, managedResource := false
      shootAccessSecret := false }
    { containerNameApiserver := "kube-apiserver", isEnabled := true
      maxReplicaCount := 4, minReplicaCount := 1 } rfl⟩

/-! ## Claim C2 -/

/-- **C2** (evaluation at the failing input): a single default storage
class whose `AllowVolumeExpansion` is unset does not support expansion,
yet `IsDefaultStorageClassResizable` reports `true` — the
`fmt.Sprint(2) != "3"` hack makes the expansion check unreachable. -/
theorem isDefaultStorageClassResizable_hack :
    IsDefaultStorageClassResizable [defaultClassWithoutExpansion] = true
    ∧ specDefaultStorageClassSupportsExpansion [defaultClassWithoutExpansion] = false
    ∧ isDefaultStorageClass defaultClassWithoutExpansion = true
    ∧ defaultClassWithoutExpansion.allowVolumeExpansion = none := by
  refine ⟨rfl, rfl, rfl, rfl⟩

/-! ## Claim C3 -/

/-- **C3**: reconciling with `IsEnabled = false`, from any prior server
state, leaves the HPA, the VPA, the ManagedResource envelope and the
shoot access secret absent, and returns no error. -/
theorem bipa_reconcile_disabled_teardown (deploymentNameApiserver : String)
    (s : BipaServerState) (p : DesiredStateParameters)
    (h : p.isEnabled = false) :
    bipaReconcile deploymentNameApiserver s p
      = .ok { hpa := none, vpa := none
              managedResource := false, shootAccessSecret := false } := by
  simp only [bipaReconcile, h]
  rfl

/-- Witness for C3 at a fully populated prior state (and, via the
universal quantification over states, covering the already-absent
case as well). -/
theorem bipa_reconcile_disabled_teardown_witness :
    ({ containerNameApiserver := "kube-apiserver", isEnabled := false
       maxReplicaCount := 4, minReplicaCount := 1 } :
       DesiredStateParameters).isEnabled = false
    ∧ bipaReconcile "kube-apiserver"
        { hpa := some (bipaDesiredHPASpec "kube-apiserver" 1 4)
          vpa := some (bipaDesiredVPASpec "kube-apiserver" "kube-apiserver" 1)
          managedResource := true, shootAccessSecret := true }
        { containerNameApiserver := "kube-apiserver", isEnabled := false
          maxReplicaCount := 4, minReplicaCount := 1 }
      = .ok { hpa := none, vpa := none
              managedResource := false, shootAccessSecret := false } :=
  ⟨rfl, bipa_reconcile_disabled_teardown "kube-apiserver"
    { hpa := some (bipaDesiredHPASpec "kube-apiserver" 1 4)
      vpa := some (bipaDesiredVPASpec "kube-apiserver" "kube-apiserver" 1)
      managedResource := true, shootAccessSecret := true }
    { containerNameApiserver := "kube-apiserver", isEnabled := false
      maxReplicaCount := 4, minReplicaCount := 1 } rfl⟩

/-! ## Claim C4 -/

/-- **C4**: reconciling with `IsEnabled = true`, `MinReplicaCount = 1`
and `MaxReplicaCount = 4` writes a horizontal policy with
`minReplicas = 1`, `maxReplicas = 4`, a strictly positive scale-down
stabilization window (900 seconds), no scale-up rules, and an
average-per-pod target of 300 on the custom request-rate metric. -/
theorem bipa_hpa_scenario5 (deploymentNameApiserver c : String)
    (s : BipaServerState) :
    (∃ s' : BipaServerState,
      bipaReconcile deploymentNameApiserver s
        { containerNameApiserver := c, isEnabled := true
          maxReplicaCount := 4, minReplicaCount := 1 } = .ok s'
      ∧ s'.hpa = some (bipaDesiredHPASpec deploymentNameApiserver 1 4))
    ∧ (bipaDesiredHPASpec deploymentNameApiserver 1 4).minReplicas = some 1
    ∧ (bipaDesiredHPASpec deploymentNameApiserver 1 4).maxReplicas = 4
    ∧ (bipaDesiredHPASpec deploymentNameApiserver 1 4).behavior
      = some { scaleUp := none
               scaleDown := some { stabilizationWindowSeconds := some 900 } }
    ∧ (0 : Int) < 900
    ∧ (bipaDesiredHPASpec deploymentNameApiserver 1 4).metrics
      = [ { type := podsMetricSourceType
            pods := some { metric := { name := bipaHPAMetricName }
                           target := { type := averageValueMetricType
                                       averageValue := some quantity300 } } } ] := by
  refine ⟨⟨{ hpa := some (bipaDesiredHPASpec deploymentNameApiserver 1 4)
             vpa := some (bipaDesiredVPASpec deploymentNameApiserver c 1)
             managedResource := true, shootAccessSecret := true }, rfl, rfl⟩,
    rfl, rfl, rfl, by decide, rfl⟩

/-! ## Claim C5 -/

/-- **C5** (counterexample): the container resource policy written by
the coordinator carries no CPU entry in `MinAllowed` — the CPU
dimension has a ceiling but no floor, refuting "both a MinAllowed floor
and a MaxAllowed ceiling for each controlled resource dimension (CPU
and memory)". -/
theorem bipa_vpa_cpu_floor_missing :
    ∃ policy : ContainerResourcePolicy,
      makeDefaultVPAResourcePolicies "kube-apiserver" = [policy]
      ∧ policy.minAllowed.cpu = none
      ∧ policy.maxAllowed.cpu = some quantity8 :=
  ⟨_, rfl, rfl, rfl⟩

/-- **C5** (amended): the vertical policy's container resource policy
for the target container sets a `MinAllowed` floor for memory and a
`MaxAllowed` ceiling for both CPU and memory (no CPU floor), satisfies
`minAllowed ≤ maxAllowed` for every dimension where both are set
(memory: 400M ≤ 25G), and restricts `ControlledValues` to
`RequestsOnly`. -/
theorem bipa_vpa_resource_policy_bounds (deploymentNameApiserver c : String)
    (m : Int) :
    (bipaDesiredVPASpec deploymentNameApiserver c m).resourcePolicy
      = some { containerPolicies := makeDefaultVPAResourcePolicies c }
    ∧ ∃ policy : ContainerResourcePolicy,
        makeDefaultVPAResourcePolicies c = [policy]
        ∧ policy.containerName = c
        ∧ policy.mode = some containerScalingModeAuto
        ∧ policy.minAllowed = { cpu := none, memory := some quantity400M }
        ∧ policy.maxAllowed = { cpu := some quantity8, memory := some quantity25G }
        ∧ quantity400M.milliValue ≤ quantity25G.milliValue
        ∧ policy.controlledValues = some controlledValuesRequestsOnly := by
  refine ⟨rfl, _, rfl, rfl, rfl, rfl, rfl, by decide, rfl⟩

/-! ## Claim C6 -/

/-- **C6**: deploying the enabled GardenerCustomMetrics component while
the CA signing secret is absent fails with an error identifying the
missing CA credential (the `ca-seed` secret) and the sub-resource it
was needed for (the server TLS certificate), and leaves the server
state unchanged — no resource configurations are deployed. -/
theorem gcmx_deploy_missing_ca_fails (namespaceName : String)
    (s : GcmxServerState) :
    (gcmxDeploy namespaceName true false s).error
      = some (gcmxBaseErrorMessage namespaceName
          ++ " - failed to deploy the gardener-custom-metrics server TLS certificate to the seed server. "
          ++ "The error message reported by the underlying operation follows: "
          ++ gcmxCAMissingErrorMessage)
    ∧ (gcmxDeploy namespaceName true false s).state = s
    ∧ strContains gcmxCAMissingErrorMessage "CA certificate" = true
    ∧ strContains gcmxCAMissingErrorMessage secretNameCASeed = true
    ∧ strContains gcmxCAMissingErrorMessage "server TLS certificate" = true
    ∧ strContains gcmxCAMissingErrorMessage "secret" = true := by
  refine ⟨rfl, rfl, ?_, ?_, ?_, ?_⟩ <;> decide

/-! ## Claim C7 -/

/-- **C7**: `Wait` and `WaitCleanup` run under the fixed two-minute
`managedResourceTimeout`; on expiry each returns an error naming the
awaited ManagedResource (namespace and name) and the awaited condition
(healthy, respectively deleted); `WaitCleanup` succeeds without error
when the ManagedResource is already absent. -/
theorem pvc_wait_timeout_contract (namespaceName : String) (t : Nat)
    (h : managedResourceTimeout < t) :
    managedResourceTimeout = 2 * timeMinute
    ∧ managedResourceTimeout = 120000000000
    ∧ pvcAutoscalerWait namespaceName (some t)
      = .error ("failed to wait until ManagedResource '" ++ namespaceName ++ "/"
          ++ pvcManagedResourceName ++ "' is healthy: " ++ waiterExpiredText)
    ∧ pvcAutoscalerWaitCleanup namespaceName (some t)
      = .error ("failed to wait until ManagedResource '" ++ namespaceName ++ "/"
          ++ pvcManagedResourceName ++ "' is deleted: " ++ waiterExpiredText)
    ∧ pvcAutoscalerWaitCleanup namespaceName (some 0) = .ok ()
    ∧ pvcAutoscalerWait namespaceName (some 0) = .ok () := by
  have ht : ¬ t ≤ managedResourceTimeout := Nat.not_le.mpr h
  refine ⟨rfl, by decide, ?_, ?_, ?_, ?_⟩
  · simp [pvcAutoscalerWait, waitUntilHealthy, ht]
  · simp [pvcAutoscalerWaitCleanup, waitUntilDeleted, ht]
  · simp [pvcAutoscalerWaitCleanup, waitUntilDeleted]
  · simp [pvcAutoscalerWait, waitUntilHealthy]

/-- Witness for C7 at namespace `garden` and an expiry one nanosecond
past the timeout. -/
theorem pvc_wait_timeout_contract_witness :
    managedResourceTimeout < 120000000001
    ∧ (managedResourceTimeout = 2 * timeMinute
      ∧ managedResourceTimeout = 120000000000
      ∧ pvcAutoscalerWait "garden" (some 120000000001)
        = .error ("failed to wait until ManagedResource '" ++ "garden" ++ "/"
            ++ pvcManagedResourceName ++ "' is healthy: " ++ waiterExpiredText)
      ∧ pvcAutoscalerWaitCleanup "garden" (some 120000000001)
        = .error ("failed to wait until ManagedResource '" ++ "garden" ++ "/"
            ++ pvcManagedResourceName ++ "' is deleted: " ++ waiterExpiredText)
      ∧ pvcAutoscalerWaitCleanup "garden" (some 0) = .ok ()
      ∧ pvcAutoscalerWait "garden" (some 0) = .ok ()) :=
  ⟨by decide, pvc_wait_timeout_contract "garden" 120000000001 (by decide)⟩

/-! ## Claim C8 -/

/-- **C8** (counterexample): the monitoring configuration's preserved
pvc-autoscaler series are not the four outcome counters of the claim:
the preserved list contains the threshold-reached counter, which is not
the counter of any of the four claimed outcomes, and no preserved
series is an error counter. -/
theorem pvc_monitor_outcome_series_mismatch :
    "pvc_autoscaler_threshold_reached_total" ∈ pvcServiceMonitorKeptMetrics
    ∧ VolumeOutcome.resized.counterName ≠ "pvc_autoscaler_threshold_reached_total"
    ∧ VolumeOutcome.skipped.counterName ≠ "pvc_autoscaler_threshold_reached_total"
    ∧ VolumeOutcome.maxCapacityReached.counterName ≠ "pvc_autoscaler_threshold_reached_total"
    ∧ VolumeOutcome.failure.counterName ≠ "pvc_autoscaler_threshold_reached_total"
    ∧ VolumeOutcome.failure.counterName ∉ pvcServiceMonitorKeptMetrics
    ∧ (∀ kept ∈ pvcServiceMonitorKeptMetrics, strContains kept "error" = false) := by
  decide

/-- **C8** (amended): the monitoring configuration preserves exactly
four distinct pvc-autoscaler counter series — resized, skipped,
max-capacity-reached, and threshold-reached — and the error outcome's
counter is not among them. -/
theorem pvc_monitor_preserved_series :
    pvcServiceMonitorKeptMetrics.length = 4
    ∧ VolumeOutcome.resized.counterName ∈ pvcServiceMonitorKeptMetrics
    ∧ VolumeOutcome.skipped.counterName ∈ pvcServiceMonitorKeptMetrics
    ∧ VolumeOutcome.maxCapacityReached.counterName ∈ pvcServiceMonitorKeptMetrics
    ∧ VolumeOutcome.failure.counterName ∉ pvcServiceMonitorKeptMetrics
    ∧ "pvc_autoscaler_threshold_reached_total" ∈ pvcServiceMonitorKeptMetrics
    ∧ pvcServiceMonitorKeptMetrics.Nodup := by
  decide

/-! ## Claim C9 -/

/-- Any resize decision requests strictly more than the current
capacity and at most the allowed ceiling. -/
theorem decideVolumeAction_resize_bounds (grow : ScalableVolume → Nat)
    (tNum tDen iNum iDen : Nat) (v : ScalableVolume) (n : Nat)
    (h : decideVolumeAction grow tNum tDen iNum iDen v = .resize n) :
    v.currentCapacityBytes < n ∧ n ≤ v.maxAllowedCapacityBytes := by
  unfold decideVolumeAction at h
  split at h
  · exact absurd h (by simp)
  · split at h
    · exact absurd h (by simp)
    · split at h
      · exact absurd h (by simp)
      · rename_i hle
        injection h with hn
        subst hn
        exact ⟨Nat.lt_of_not_le hle, min_le_right _ _⟩

/-- One reconciliation pass never decreases the stored capacity. -/
theorem enginePass_capacity_mono (grow : ScalableVolume → Nat)
    (tNum tDen iNum iDen : Nat) (v : ScalableVolume) (o : UsageObservation) :
    v.currentCapacityBytes
      ≤ (enginePass grow tNum tDen iNum iDen v o).currentCapacityBytes := by
  show v.currentCapacityBytes
    ≤ (applyEngineAction (refreshUsage v o)
        (decideVolumeAction grow tNum tDen iNum iDen (refreshUsage v o))).currentCapacityBytes
  cases hd : decideVolumeAction grow tNum tDen iNum iDen (refreshUsage v o) with
  | noAction => exact Nat.le_refl _
  | maxCapacityReached => exact Nat.le_refl _
  | resize n =>
    have hb := decideVolumeAction_resize_bounds grow tNum tDen iNum iDen
      (refreshUsage v o) n hd
    exact Nat.le_of_lt hb.1

/-- Capacity is monotone over any sequence of passes. -/
theorem engineRun_capacity_mono (grow : ScalableVolume → Nat)
    (tNum tDen iNum iDen : Nat) (trajectory : List UsageObservation)
    (v : ScalableVolume) :
    v.currentCapacityBytes
      ≤ (engineRun grow tNum tDen iNum iDen v trajectory).currentCapacityBytes := by
  induction trajectory generalizing v with
  | nil => exact Nat.le_refl _
  | cons o os ih =>
    exact Nat.le_trans (enginePass_capacity_mono grow tNum tDen iNum iDen v o)
      (ih (enginePass grow tNum tDen iNum iDen v o))

/-- **C9**: for every managed volume and every usage trajectory,
`currentCapacityBytes` is monotonically non-decreasing across
reconciliation passes, and every requested capacity satisfies
`currentCapacityBytes < newCapacity ≤ maxAllowedCapacityBytes` — the
engine never requests a capacity below current. -/
theorem engine_capacity_never_decreases (grow : ScalableVolume → Nat)
    (tNum tDen iNum iDen : Nat) (v : ScalableVolume)
    (trajectory : List UsageObservation) :
    (∀ n, decideVolumeAction grow tNum tDen iNum iDen v = .resize n →
      v.currentCapacityBytes < n ∧ n ≤ v.maxAllowedCapacityBytes)
    ∧ v.currentCapacityBytes
      ≤ (engineRun grow tNum tDen iNum iDen v trajectory).currentCapacityBytes :=
  ⟨fun n h => decideVolumeAction_resize_bounds grow tNum tDen iNum iDen v n h,
   engineRun_capacity_mono grow tNum tDen iNum iDen trajectory v⟩

/-- Witness for C9 at the spec's concrete scenario 1 (10Gi capacity,
9Gi used, threshold 4/5, ceiling 20Gi, doubling growth policy): the
engine requests 20Gi, strictly above current and within the ceiling. -/
theorem engine_capacity_never_decreases_witness :
    scenario1Volume.currentCapacityBytes < 21474836480
    ∧ 21474836480 ≤ scenario1Volume.maxAllowedCapacityBytes :=
  (engine_capacity_never_decreases growDouble 4 5 4 5 scenario1Volume []).1
    21474836480 (by decide)

/-! ## Claim C10 -/

/-- **C10**: a GardenerCustomMetrics handle constructed with
`enabled = false` deploys by destroying: the ManagedResource is removed
from the seed and no error is returned, for every prior server state
and regardless of whether the CA secret is present. -/
theorem gcmx_deploy_disabled_acts_as_destroy (namespaceName : String)
    (caSeedPresent : Bool) (s : GcmxServerState) :
    (gcmxDeploy namespaceName false caSeedPresent s).error = none
    ∧ (gcmxDeploy namespaceName false caSeedPresent s).state.managedResource = false
    ∧ (gcmxDeploy namespaceName false caSeedPresent s).state = destroyResourceConfigs s :=
  ⟨rfl, rfl, rfl⟩
